import Mathlib

/-!
Verification development for the single-cell methylation browser content module
(team/content.py).  The Python functions are shallowly embedded: filesystem and
database accesses become explicit parameters (lists of rows, lookup oracles,
boolean existence flags), pandas frames become lists of records, float values
that may be NaN become `Option ℚ`, and raised exceptions become explicit
outcome constructors.  Every definition is translated from the source file;
claim theorems then settle the specification's statements against them.
-/

namespace ScmdbContent

/-! ## Value model

mCH values handled by the plotting pipeline are Python floats that may be NaN
(the result of a left join with no matching methylation row).  `MethValue`
models such a float; `PercentileColor` models the return type of
`set_color_by_percentile`, which is either a numeric value or the literal
string 'grey'. -/

inductive MethValue where
  | nan : MethValue
  | num (v : ℚ) : MethValue
deriving DecidableEq

inductive PercentileColor where
  | grey : PercentileColor
  | value (v : ℚ) : PercentileColor
deriving DecidableEq

/-- Embedding of content.py `set_color_by_percentile(this, start, end)`.
The source first tests `str(this) == 'nan'` and returns the string 'grey',
then clips `this` to the interval [start, end].  The Python parameter `end`
is named `stop` here because `end` is a Lean keyword. -/
def set_color_by_percentile (this : MethValue) (start stop : ℚ) : PercentileColor :=
  match this with
  | MethValue.nan => PercentileColor.grey
  | MethValue.num v =>
    if v < start then PercentileColor.value start
    else if v > stop then PercentileColor.value stop
    else PercentileColor.value v

/-! ## Row model

`ClusterPoint` is one record of tsne_points_ordered.tsv (the columns selected
by the merge in `get_gene_methylation` / `get_mult_gene_methylation`).
`MethRow` is one row of a per-gene methylation TSV (columns gene, samp,
original, normalized).  `GeneRow` is one record of the merged frame: the
methylation columns are `Option ℚ` because a left join leaves NaN where no
methylation row matched the sample. -/

structure ClusterPoint where
  samp : String
  tsne_x : ℚ
  tsne_y : ℚ
  cluster_label : String
  cluster_name : String
  cluster_ordered : ℚ
  cluster_ortholog : String
deriving DecidableEq

structure MethRow where
  gene : String
  samp : String
  original : ℚ
  normalized : ℚ
deriving DecidableEq

structure GeneRow where
  samp : String
  tsne_x : ℚ
  tsne_y : ℚ
  cluster_label : String
  cluster_name : String
  cluster_ordered : ℚ
  cluster_ortholog : String
  original : Option ℚ
  normalized : Option ℚ
deriving DecidableEq

/-- The `level` argument of the aggregation functions: 'original' or
'normalized'. -/
inductive Level where
  | original : Level
  | normalized : Level
deriving DecidableEq

/-- The `cluster_type` argument of `median_cluster_mch`: which cluster column
to group by ('cluster_name', 'cluster_label' or 'cluster_ortholog'). -/
inductive ClusterKey where
  | cname : ClusterKey
  | clabel : ClusterKey
  | cortholog : ClusterKey
deriving DecidableEq

def rowLevel (r : GeneRow) : Level → Option ℚ
  | Level.original => r.original
  | Level.normalized => r.normalized

def rowCluster (r : GeneRow) : ClusterKey → String
  | ClusterKey.cname => r.cluster_name
  | ClusterKey.clabel => r.cluster_label
  | ClusterKey.cortholog => r.cluster_ortholog

/-- Comparison used by `sort_values('cluster_ordered', ascending=True)`. -/
def geneRowLE (a b : GeneRow) : Prop := a.cluster_ordered ≤ b.cluster_ordered

instance : DecidableRel geneRowLE :=
  fun a b => inferInstanceAs (Decidable (a.cluster_ordered ≤ b.cluster_ordered))

instance : IsTotal GeneRow geneRowLE :=
  ⟨fun a b => le_total a.cluster_ordered b.cluster_ordered⟩

instance : IsTrans GeneRow geneRowLE :=
  ⟨fun _ _ _ h1 h2 => le_trans h1 h2⟩

/-- Embedding of `DataFrame.sort_values(by='cluster_ordered', ascending=True)`
as a stable comparison sort on the cluster_ordered column. -/
def sortGeneRows (l : List GeneRow) : List GeneRow := l.insertionSort geneRowLE

/-! ## Median and quantile (pandas semantics) -/

/-- Ascending sort of a list of rationals. -/
def sortedVals (xs : List ℚ) : List ℚ := xs.insertionSort (· ≤ ·)

/-- Median of an already sorted list: the middle element for odd length, the
mean of the two middle elements for even length, none for the empty list
(pandas returns NaN there). -/
def medianOfSorted (vs : List ℚ) : Option ℚ :=
  if vs.length = 0 then none
  else if vs.length % 2 = 1 then vs.get? (vs.length / 2)
  else
    match vs.get? (vs.length / 2 - 1), vs.get? (vs.length / 2) with
    | some a, some b => some ((a + b) / 2)
    | _, _ => none

/-- Embedding of `pandas.Series.median()` with its default skipna=True: NaN
entries are dropped, the rest is sorted and the middle is taken. -/
def pandasMedian (xs : List (Option ℚ)) : Option ℚ :=
  medianOfSorted (sortedVals (xs.filterMap id))

/-- Embedding of `pandas.Series.quantile(p)` with the default linear
interpolation, applied to the non-NaN entries: for sorted values
x_0 .. x_(n-1) the result is x_i + frac * (x_(i+1) - x_i) where
i = floor(p * (n - 1)) and frac is the fractional part.  Returns none on an
empty list (pandas returns NaN).  The callers in content.py use
p ∈ \x7b0.05, 0.95, 0.99\x7d, so p * (n - 1) is never negative. -/
def pandasQuantile (xs : List ℚ) (p : ℚ) : Option ℚ :=
  let s := sortedVals xs
  match s with
  | [] => none
  | _ :: _ =>
    let n := s.length
    let pos : ℚ := p * ((n : ℚ) - 1)
    let i : ℕ := (⌊pos⌋).toNat
    let frac : ℚ := pos - (i : ℚ)
    match s.get? i, s.get? (min (i + 1) (n - 1)) with
    | some lo, some hi => some (lo + frac * (hi - lo))
    | _, _ => none

/-! ## median_cluster_mch -/

/-- First-appearance key order of a list, with an accumulator of already seen
keys: the group order produced by `groupby(cluster_type, sort=False)` on an
already sorted frame. -/
def firstKeysAux (key : GeneRow → String) : List GeneRow → List String → List String
  | [], _ => []
  | a :: t, seen =>
    if seen.contains (key a) then firstKeysAux key t seen
    else key a :: firstKeysAux key t (key a :: seen)

def firstKeys (key : GeneRow → String) (l : List GeneRow) : List String :=
  firstKeysAux key l []

/-- Grouped median of content.py `median_cluster_mch` after the input frame
has been built: the rows are sorted on cluster_ordered, grouped by the chosen
cluster column in first-appearance order (groupby with sort=False), and each
group's `level` column is reduced to its median. -/
def median_cluster_mch_core (gene_info : List GeneRow) (level : Level)
    (cluster_type : ClusterKey) : List (String × Option ℚ) :=
  let sorted := sortGeneRows gene_info
  (firstKeys (fun r => rowCluster r cluster_type) sorted).map
    (fun k => (k, pandasMedian
      ((sorted.filter (fun r => rowCluster r cluster_type == k)).map
        (fun r => rowLevel r level))))

/-- Embedding of content.py `median_cluster_mch(gene_info, level,
cluster_type)`.  On an empty gene_info the constructed DataFrame has no
columns, so `sort_values('cluster_ordered')` raises a pandas KeyError; this is
modelled as the error case. -/
def median_cluster_mch (gene_info : List GeneRow) (level : Level)
    (cluster_type : ClusterKey) : Except String (List (String × Option ℚ)) :=
  if gene_info.isEmpty then Except.error "KeyError"
  else Except.ok (median_cluster_mch_core gene_info level cluster_type)

/-! ## get_gene_methylation -/

/-- Embedding of `pandas.merge(cluster, mch, on='samp', how='left')` keeping
the cluster columns selected in content.py: every cluster point appears; each
matching methylation row produces one output record; a cluster point with no
matching methylation row appears once with NaN (none) methylation values. -/
def leftJoinOnSamp (cluster : List ClusterPoint) (mch : List MethRow) : List GeneRow :=
  cluster.flatMap (fun c =>
    match mch.filter (fun m => m.samp == c.samp) with
    | [] => [⟨c.samp, c.tsne_x, c.tsne_y, c.cluster_label, c.cluster_name,
              c.cluster_ordered, c.cluster_ortholog, none, none⟩]
    | m :: ms => (m :: ms).map (fun mr =>
        ⟨c.samp, c.tsne_x, c.tsne_y, c.cluster_label, c.cluster_name,
         c.cluster_ordered, c.cluster_ortholog, some mr.original, some mr.normalized⟩))

/-- Python/pandas comparison `x < y` on possibly-NaN values: any comparison
involving NaN is False. -/
def pyLtOpt (a b : Option ℚ) : Bool :=
  match a, b with
  | some x, some y => decide (x < y)
  | _, _ => false

/-- The 99th percentile of the normalized column of a merged frame, as
computed by `dataframe_merged['normalized'].quantile(0.99)` (NaN skipped). -/
def normQuantile99 (joined : List GeneRow) : Option ℚ :=
  pandasQuantile (joined.filterMap GeneRow.normalized) (99 / 100)

/-- Embedding of content.py `get_gene_methylation(species, methylationType,
gene, outliers)`.  The filesystem queries `species_exists` and `gene_exists`
become the boolean flags; the concatenation of the per-dataset methylation
TSV files becomes `mch`; the tSNE points become `cluster`.  The source returns
[] when species or gene is missing, left-joins the cluster points with the
methylation rows on samp, then (for outliers=False) keeps only rows whose
normalized value compares strictly below the 0.99 quantile - a pandas
comparison, so rows whose normalized value is NaN are dropped as well - and
finally sorts by cluster_ordered ascending. -/
def get_gene_methylation (speciesOk geneOk : Bool) (cluster : List ClusterPoint)
    (mch : List MethRow) (outliers : Bool) : List GeneRow :=
  if speciesOk && geneOk then
    let joined := leftJoinOnSamp cluster mch
    if outliers then sortGeneRows joined
    else sortGeneRows (joined.filter (fun r => pyLtOpt r.normalized (normQuantile99 joined)))
  else []

/-! ## get_metadata -/

/-- One row of a metadata.csv file as produced by csv.DictReader. -/
def MetaRow : Type := List (String × String)

instance : DecidableEq MetaRow := inferInstanceAs (DecidableEq (List (String × String)))

/-- The JSON value returned by the /content/metadata/dataset route: either
the serialization of a data list or of a null data field. -/
inductive MetaJson where
  | dataRows (rows : List MetaRow) : MetaJson
  | dataNull : MetaJson

/-- Loop of content.py `get_metadata`: walk the top-level directories of the
datasets directory in order and return the rows of the first
datasets/dir/dataset/metadata.csv that exists.  `readMeta d` is some rows
precisely when that file exists for directory d. -/
def get_metadata_scan (readMeta : String → Option (List MetaRow)) :
    List String → Option (List MetaRow)
  | [] => none
  | d :: ds =>
    match readMeta d with
    | some rows => some rows
    | none => get_metadata_scan readMeta ds

/-- Embedding of content.py `get_metadata(dataset)`.  The os.walk of the
datasets directory is represented by the list of its top-level directories
(the `break` in the source stops after the first walk iteration); the route
serializes either the found rows or null. -/
def get_metadata (readMeta : String → Option (List MetaRow)) (topDirs : List String) :
    MetaJson :=
  match get_metadata_scan readMeta topDirs with
  | some rows => MetaJson.dataRows rows
  | none => MetaJson.dataNull

/-! ## gene_exists -/

/-- Embedding of content.py `gene_exists(species, methylationType, gene)`.
`walkIters` is the sequence of `dirs` lists yielded by os.walk on the
species' datasets directory; `hasMatch d` holds when the glob
root/d/methylationType/gene* is non-empty.  The source iterates the dirs of
the first walk item, returns True on the first glob match, and returns False
at the end of that first iteration; when the walk yields nothing the function
falls through and implicitly returns Python None, modelled as `none`. -/
def gene_exists (walkIters : List (List String)) (hasMatch : String → Bool) :
    Option Bool :=
  match walkIters with
  | [] => none
  | dirs :: _ => some (dirs.any hasMatch)

/-! ## search_gene_names and get_corr_genes -/

structure GeneNameRow where
  geneID : String
  geneName : String
deriving DecidableEq

/-- SQL `column LIKE query || '%'` match: case-insensitive prefix match
(SQLite LIKE is case-insensitive for ASCII). -/
def likeQueryMatch (query s : String) : Bool :=
  query.toLower.isPrefixOf s.toLower

/-- Embedding of content.py `search_gene_names(species, query)`: [] when the
species directory is missing, [] when the gene_names query raises
sqlite3.Error (after logging), otherwise the rows whose geneName matches
query% with at most the first 50 kept (`[:50]`). -/
def search_gene_names (speciesOk dbOk : Bool) (db : List GeneNameRow)
    (query : String) : List GeneNameRow :=
  if !speciesOk then []
  else if !dbOk then []
  else ((db.filter (fun g => likeQueryMatch query g.geneName)).take 50)

structure CorrRow where
  gene1 : String
  gene2 : String
  correlation : ℚ
deriving DecidableEq

/-- Descending correlation order used by `ORDER BY Correlation DESC`. -/
def corrGE (a b : CorrRow) : Prop := b.correlation ≤ a.correlation

instance : DecidableRel corrGE :=
  fun a b => inferInstanceAs (Decidable (b.correlation ≤ a.correlation))

/-- Rows produced by the corr_genes SQL query: Gene1 LIKE query%, ordered by
descending correlation, LIMIT 50. -/
def corrQueryRows (db : List CorrRow) (query : String) : List CorrRow :=
  ((db.filter (fun r => likeQueryMatch query r.gene1)).insertionSort corrGE).take 50

/-- One entry of the table built by get_corr_genes: the gene info dict from
gene_id_to_name extended with Rank and Corr. -/
structure CorrEntry where
  info : List (String × String)
  rank : ℕ
  corr : ℚ

/-- Result of get_corr_genes: on success a table of entries; when the SQL
query raises sqlite3.Error the source logs and then executes `return(1)`,
handing back the integer 1. -/
inductive CorrResult where
  | table (rows : List CorrEntry) : CorrResult
  | sentinel (n : ℕ) : CorrResult

/-- Embedding of content.py `get_corr_genes(species, query)`.  `dbOk` is
false when `cursor.execute` on top_corr_genes.sqlite3 raises sqlite3.Error;
`geneInfo` is the gene_id_to_name lookup. -/
def get_corr_genes (dbOk : Bool) (db : List CorrRow)
    (geneInfo : String → List (String × String)) (query : String) : CorrResult :=
  if dbOk then
    CorrResult.table ((corrQueryRows db query).enum.map
      (fun p => ⟨geneInfo p.2.gene2, p.1 + 1, p.2.correlation⟩))
  else CorrResult.sentinel 1

/-! ## convert_geneID_mmu_hsa -/

def isPrefixOfList : List Char → List Char → Bool
  | [], _ => true
  | _ :: _, [] => false
  | a :: as, b :: bs => a == b && isPrefixOfList as bs

def hasSubList (pat : List Char) : List Char → Bool
  | [] => isPrefixOfList pat []
  | a :: t => isPrefixOfList pat (a :: t) || hasSubList pat t

/-- Python substring containment `pat in s`. -/
def strContains (s pat : String) : Bool := hasSubList pat.toList s.toList

/-- Embedding of content.py `convert_geneID_mmu_hsa(species, geneID)`.  The
two `find_orthologs` directions are oracles returning the looked-up ID or
none (the source propagates the dictionary entry, which may be Python None).
For the mouse species views a geneID already containing 'ENSMUSG' is returned
unchanged, otherwise the mouse ortholog of the human ID is looked up; for
other species the roles are swapped. -/
def convert_geneID_mmu_hsa (orthMmuOfHsa orthHsaOfMmu : String → Option String)
    (species geneID : String) : Option String :=
  if species == "mouse_published" || species == "mmu" then
    if !(strContains geneID "ENSMUSG") then orthMmuOfHsa geneID
    else some geneID
  else
    if strContains geneID "ENSMUSG" then orthHsaOfMmu geneID
    else some geneID

/-! ## randomize_cluster_colors -/

/-- Observable cost of one call of content.py `randomize_cluster_colors`:
how many generation attempts ran and how many seconds were spent in
time.sleep. -/
structure RetryTrace where
  attempts : ℕ
  sleepSeconds : ℕ
deriving DecidableEq

/-- Embedding of the control flow of content.py `randomize_cluster_colors`.
An attempt builds the new color set and then reads the global `trace_colors`;
when that global is not yet defined the NameError is caught, the function
sleeps two seconds and calls itself again.  The recursion is bounded here by
fuel (the real code recurses until the interpreter kills it or the global
appears); each fuel step is one more retry. -/
def randomize_cluster_colors_trace (traceColorsDefined : Bool) : ℕ → RetryTrace
  | 0 => if traceColorsDefined then ⟨1, 0⟩ else ⟨1, 2⟩
  | n + 1 =>
    if traceColorsDefined then ⟨1, 0⟩
    else
      let rest := randomize_cluster_colors_trace traceColorsDefined n
      ⟨1 + rest.attempts, 2 + rest.sleepSeconds⟩

/-! ## Plot-generating functions: outcome on the queried data

Each plot function is modelled by the outcome it produces as a function of
the data its queries returned; building the Plotly figure itself always
succeeds and is abstracted as the html outcome. -/

inductive PlotOutcome where
  | html : PlotOutcome
  | raisedFailToGraph : PlotOutcome
  | returnedFailToGraphClass : PlotOutcome
  | raisedPyError (msg : String) : PlotOutcome
deriving DecidableEq

/-- Outcome of content.py `get_cluster_plot` as a function of the tSNE query
results.  In the 2D branch an empty or missing points list raises
FailToGraphException; in the 3D branch the source indexes `points_3d[0]`
before any emptiness check, so a missing list raises TypeError and an empty
list raises IndexError. -/
def get_cluster_plot_outcome (has3D : Bool) (points3d : Option (List ClusterPoint))
    (points2d : Option (List ClusterPoint)) : PlotOutcome :=
  if has3D then
    match points3d with
    | none => PlotOutcome.raisedPyError "TypeError"
    | some [] => PlotOutcome.raisedPyError "IndexError"
    | some (_ :: _) => PlotOutcome.html
  else
    match points2d with
    | none => PlotOutcome.raisedFailToGraph
    | some [] => PlotOutcome.raisedFailToGraph
    | some (_ :: _) => PlotOutcome.html

/-- Outcome of content.py `get_methylation_scatter` as a function of the
methylation points queried for the gene(s): `if not points: raise
FailToGraphException`. -/
def get_methylation_scatter_outcome (points : List GeneRow) : PlotOutcome :=
  if points.isEmpty then PlotOutcome.raisedFailToGraph else PlotOutcome.html

/-- Outcome of content.py `get_mch_heatmap` as a function of the per-gene
methylation data.  The source performs no emptiness check: a gene whose data
is empty reaches `median_cluster_mch`, whose sort_values on the columnless
frame raises a pandas KeyError; an empty gene list reaches
`quantile(0.05)[0]` on an empty frame, also a KeyError.  FailToGraphException
is never raised here. -/
def get_mch_heatmap_outcome (geneData : List (List GeneRow)) : PlotOutcome :=
  if geneData.any List.isEmpty then PlotOutcome.raisedPyError "KeyError"
  else if geneData.isEmpty then PlotOutcome.raisedPyError "KeyError"
  else PlotOutcome.html

/-- Outcome of content.py `get_mch_heatmap_two_species` as a function of the
genes parsed from the query and the per-gene methylation data.  A gene with
empty data raises a pandas KeyError inside `median_cluster_mch` before the
emptiness check; with no genes at all both per-species frames are empty and
the source executes `return FailToGraphException` - it returns the exception
class as a normal value instead of raising it. -/
def get_mch_heatmap_two_species_outcome (genes : List String)
    (geneData : String → List GeneRow) : PlotOutcome :=
  if genes.any (fun g => (geneData g).isEmpty) then PlotOutcome.raisedPyError "KeyError"
  else if genes.isEmpty then PlotOutcome.returnedFailToGraphClass
  else PlotOutcome.html

/-- Outcome of content.py `get_mch_box` as a function of the methylation
points queried for the gene: `if not points: raise FailToGraphException`. -/
def get_mch_box_outcome (points : List GeneRow) : PlotOutcome :=
  if points.isEmpty then PlotOutcome.raisedFailToGraph else PlotOutcome.html

/-- Outcome of content.py `get_mch_box_two_species` as a function of the two
species' methylation points and the ortholog cluster order: any of them empty
raises FailToGraphException. -/
def get_mch_box_two_species_outcome (points_mmu points_hsa : List GeneRow)
    (cluster_order : List (String × ℤ)) : PlotOutcome :=
  if points_mmu.isEmpty || points_hsa.isEmpty || cluster_order.isEmpty then
    PlotOutcome.raisedFailToGraph
  else PlotOutcome.html

/-! ## Concrete data used by witnesses and counterexamples -/

/-- Oracle returning no methylation data for any gene. -/
def c1noData : String → List GeneRow := fun _ => []

/-- Two rows with distinct clusters, cluster_ordered out of input order. -/
def c5rows : List GeneRow :=
  [⟨"s1", 0, 0, "L", "A", 2, "O", some 1, some 1⟩,
   ⟨"s2", 0, 0, "L", "B", 1, "O", some 2, some 3⟩]

/-- Three cluster points; the third has no methylation row. -/
def c6cluster : List ClusterPoint :=
  [⟨"s1", 0, 0, "L1", "C1", 1, "O1"⟩,
   ⟨"s2", 0, 0, "L1", "C1", 2, "O1"⟩,
   ⟨"s3", 0, 0, "L1", "C1", 3, "O1"⟩]

/-- Methylation rows for samples s1 and s2 only. -/
def c6mch : List MethRow :=
  [⟨"g", "s1", 0, 0⟩, ⟨"g", "s2", 10, 10⟩]

/-- Metadata oracle that finds no metadata.csv anywhere. -/
def c7noMeta : String → Option (List MetaRow) := fun _ => none

/-- Gene info oracle returning an empty dict. -/
def c8geneInfo : String → List (String × String) := fun _ => []

/-- Glob oracle that never matches. -/
def c9noMatch : String → Bool := fun _ => false

/-- Ortholog oracle that finds nothing. -/
def c10noOrth : String → Option String := fun _ => none

/-! ## Helper lemmas -/

theorem sortedVals_perm_congr {a b : List ℚ} (h : a.Perm b) : sortedVals a = sortedVals b := by
  unfold sortedVals
  exact List.eq_of_perm_of_sorted
    (((List.perm_insertionSort (· ≤ ·) a).trans h).trans
      (List.perm_insertionSort (· ≤ ·) b).symm)
    (List.sorted_insertionSort (· ≤ ·) a)
    (List.sorted_insertionSort (· ≤ ·) b)

theorem pandasMedian_perm {xs ys : List (Option ℚ)} (h : xs.Perm ys) :
    pandasMedian xs = pandasMedian ys := by
  unfold pandasMedian
  rw [sortedVals_perm_congr (h.filterMap id)]

theorem lookup_map_key {β : Type} (f : String → β) (c : String) :
    ∀ ks : List String, c ∈ ks →
      (ks.map (fun k => (k, f k))).lookup c = some (f c) := by
  intro ks
  induction ks with
  | nil => intro h; cases h
  | cons a t ih =>
    intro h
    by_cases hc : c = a
    · subst hc; simp [List.lookup]
    · have ht : c ∈ t := by
        cases h with
        | head => exact absurd rfl hc
        | tail _ h2 => exact h2
      have hb : (c == a) = false := beq_eq_false_iff_ne.mpr hc
      simp [List.lookup, hb, ih ht]

theorem mem_leftJoinOnSamp {r : GeneRow} {cl : List ClusterPoint} {mh : List MethRow}
    (h : r ∈ leftJoinOnSamp cl mh) : ∃ c ∈ cl, r.samp = c.samp := by
  unfold leftJoinOnSamp at h
  rw [List.mem_flatMap] at h
  obtain ⟨c, hc, hr⟩ := h
  refine ⟨c, hc, ?_⟩
  revert hr
  cases hm : mh.filter (fun m => m.samp == c.samp) with
  | nil => intro hr; simp at hr; subst hr; rfl
  | cons m ms =>
    intro hr
    rw [List.mem_map] at hr
    obtain ⟨mr, _, hmr⟩ := hr
    subst hmr; rfl

/-! ## Claim theorems -/

/-- C1: the claim says every plot-generating function raises the generic
FailToGraphException on empty queried data.  get_mch_heatmap_two_species
instead executes `return FailToGraphException` at its emptiness check: with
an empty gene query (both per-species frames empty) the exception class comes
back as a normal return value, and no execution path of the function raises
FailToGraphException at all. -/
theorem get_mch_heatmap_two_species_empty_returns :
    get_mch_heatmap_two_species_outcome [] c1noData = PlotOutcome.returnedFailToGraphClass ∧
    ∀ genes gd, (get_mch_heatmap_two_species_outcome genes gd ==
      PlotOutcome.raisedFailToGraph) = false := by
  constructor
  · rfl
  · intro genes gd
    unfold get_mch_heatmap_two_species_outcome
    split
    · rfl
    · split <;> rfl

/-- C2: set_color_by_percentile clips a numeric value to the percentile
bounds - start when below start, the upper bound when above it, the value
itself inside the interval - and maps NaN to the color grey. -/
theorem set_color_by_percentile_clips (v start stop : ℚ) (h : start ≤ stop) :
    (v < start →
      set_color_by_percentile (MethValue.num v) start stop = PercentileColor.value start) ∧
    (stop < v →
      set_color_by_percentile (MethValue.num v) start stop = PercentileColor.value stop) ∧
    (start ≤ v → v ≤ stop →
      set_color_by_percentile (MethValue.num v) start stop = PercentileColor.value v) ∧
    set_color_by_percentile MethValue.nan start stop = PercentileColor.grey := by
  refine ⟨?_, ?_, ?_, rfl⟩
  · intro hv
    simp [set_color_by_percentile, hv]
  · intro hv
    have hns : ¬ v < start := not_lt.mpr (le_trans h (le_of_lt hv))
    simp [set_color_by_percentile, hns, hv]
  · intro h1 h2
    simp [set_color_by_percentile, not_lt.mpr h1, not_lt.mpr h2]

/-- C2 witness: a value inside the percentile interval is returned as is. -/
theorem set_color_by_percentile_clips_witness :
    set_color_by_percentile (MethValue.num 5) 0 10 = PercentileColor.value 5 :=
  (set_color_by_percentile_clips 5 0 10 (by norm_num)).2.2.1 (by norm_num) (by norm_num)

/-- C3: the claim says every data-query helper signals internal errors only
by an empty result, a log line, or FailToGraphException.  get_corr_genes, on
a sqlite3.Error from its SQL query, logs and then executes `return(1)`: the
integer sentinel 1 is handed back to the caller. -/
theorem get_corr_genes_error_sentinel (db : List CorrRow)
    (geneInfo : String → List (String × String)) (query : String) :
    get_corr_genes false db geneInfo query = CorrResult.sentinel 1 := rfl

/-- C4 counterexample: the claim says no error path is ever re-attempted,
i.e. a single call performs exactly one attempt.  When the global
trace_colors is undefined, randomize_cluster_colors catches the NameError,
sleeps and calls itself again: already with fuel 1 a call performs two
attempts. -/
theorem randomize_cluster_colors_retries :
    (randomize_cluster_colors_trace false 1).attempts = 2 ∧
    (randomize_cluster_colors_trace false 1).sleepSeconds = 4 := by decide

/-- C4 amended: no operation retries except randomize_cluster_colors; when
trace_colors is defined a call performs exactly one attempt and never sleeps,
and when it is undefined the call re-attempts after a two-second sleep on
every available fuel step (the unbounded recursion of the source truncated at
the given fuel). -/
theorem randomize_cluster_colors_trace_spec (fuel : ℕ) :
    randomize_cluster_colors_trace true fuel = ⟨1, 0⟩ ∧
    (randomize_cluster_colors_trace false fuel).attempts = fuel + 1 ∧
    (randomize_cluster_colors_trace false fuel).sleepSeconds = 2 * (fuel + 1) := by
  induction fuel with
  | zero => exact ⟨rfl, rfl, rfl⟩
  | succ n ih =>
    refine ⟨rfl, ?_, ?_⟩
    · show 1 + (randomize_cluster_colors_trace false n).attempts = n + 1 + 1
      rw [ih.2.1]; omega
    · show 2 + (randomize_cluster_colors_trace false n).sleepSeconds = 2 * (n + 1 + 1)
      rw [ih.2.2]; omega

/-- C9: when the os.walk of the species' datasets directory yields no
iteration, gene_exists falls off the loop and returns Python None - not the
documented boolean False; an actual boolean is returned exactly when the walk
yields at least one iteration. -/
theorem gene_exists_none_on_empty_walk (hasMatch : String → Bool) :
    gene_exists [] hasMatch = none ∧
    (gene_exists [] hasMatch).isSome = false ∧
    ∀ dirs rest, ∃ b, gene_exists (dirs :: rest) hasMatch = some b := by
  refine ⟨rfl, rfl, fun dirs rest => ⟨dirs.any hasMatch, rfl⟩⟩

/-- C9 witness: the first conjunct at a concrete glob oracle. -/
theorem gene_exists_none_on_empty_walk_witness :
    gene_exists [] c9noMatch = none :=
  (gene_exists_none_on_empty_walk c9noMatch).1

/-- C10: convert_geneID_mmu_hsa is the identity on gene IDs that already
match the species being viewed: for the mouse species and an ID containing
ENSMUSG, and for any other species and an ID not containing ENSMUSG, the ID
is returned unchanged whatever the ortholog lookups would say. -/
theorem convert_geneID_mmu_hsa_identity (o1 o2 : String → Option String)
    (species geneID : String) :
    ((species = "mouse_published" ∨ species = "mmu") →
      strContains geneID "ENSMUSG" = true →
      convert_geneID_mmu_hsa o1 o2 species geneID = some geneID) ∧
    (species ≠ "mouse_published" → species ≠ "mmu" →
      strContains geneID "ENSMUSG" = false →
      convert_geneID_mmu_hsa o1 o2 species geneID = some geneID) := by
  constructor
  · intro hs hc
    unfold convert_geneID_mmu_hsa
    rcases hs with h | h <;> subst h <;> simp [hc]
  · intro h1 h2 hc
    unfold convert_geneID_mmu_hsa
    have e1 : (species == "mouse_published") = false := by
      simp [h1]
    have e2 : (species == "mmu") = false := by
      simp [h2]
    simp [e1, e2, hc]

/-- C10 witness: a mouse gene ID viewed on the mouse species is unchanged. -/
theorem convert_geneID_mmu_hsa_identity_witness :
    convert_geneID_mmu_hsa c10noOrth c10noOrth "mmu" "ENSMUSG0000001" =
      some "ENSMUSG0000001" :=
  (convert_geneID_mmu_hsa_identity c10noOrth c10noOrth "mmu" "ENSMUSG0000001").1
    (Or.inr rfl) (by decide)

theorem get_metadata_scan_eq_none_iff (rd : String → Option (List MetaRow)) :
    ∀ dirs : List String, get_metadata_scan rd dirs = none ↔ ∀ d ∈ dirs, rd d = none := by
  intro dirs
  induction dirs with
  | nil => simp [get_metadata_scan]
  | cons d ds ih =>
    unfold get_metadata_scan
    cases hd : rd d with
    | some rows => simp [hd]
    | none => simp [hd, ih]

theorem get_metadata_scan_eq_some (rd : String → Option (List MetaRow)) :
    ∀ (dirs : List String) (rows : List MetaRow),
      get_metadata_scan rd dirs = some rows →
      ∃ pre d post, dirs = pre ++ d :: post ∧ (∀ e ∈ pre, rd e = none) ∧ rd d = some rows := by
  intro dirs
  induction dirs with
  | nil => intro rows h; simp [get_metadata_scan] at h
  | cons d ds ih =>
    intro rows h
    unfold get_metadata_scan at h
    cases hd : rd d with
    | some rows2 =>
      rw [hd] at h
      refine ⟨[], d, ds, rfl, by simp, ?_⟩
      rw [hd]
      exact h
    | none =>
      rw [hd] at h
      obtain ⟨pre, e, post, heq, hpre, he⟩ := ih rows h
      refine ⟨d :: pre, e, post, by rw [heq]; rfl, ?_, he⟩
      intro x hx
      cases hx with
      | head => exact hd
      | tail _ hx2 => exact hpre x hx2

/-- C7: the dataset-metadata route walks the top-level dataset directories in
order and returns the JSON serialization of a data field holding the rows of
the first metadata.csv found for the dataset, or of a null data field when no
directory has one. -/
theorem get_metadata_route_spec (rd : String → Option (List MetaRow))
    (topDirs : List String) :
    (get_metadata rd topDirs = MetaJson.dataNull ↔ ∀ d ∈ topDirs, rd d = none) ∧
    (∀ rows, get_metadata rd topDirs = MetaJson.dataRows rows →
      ∃ pre d post, topDirs = pre ++ d :: post ∧
        (∀ e ∈ pre, rd e = none) ∧ rd d = some rows) := by
  constructor
  · constructor
    · intro h
      cases hs : get_metadata_scan rd topDirs with
      | none => exact (get_metadata_scan_eq_none_iff rd topDirs).1 hs
      | some rows => simp [get_metadata, hs] at h
    · intro h
      have hs : get_metadata_scan rd topDirs = none :=
        (get_metadata_scan_eq_none_iff rd topDirs).2 h
      simp [get_metadata, hs]
  · intro rows h
    cases hs : get_metadata_scan rd topDirs with
    | none => simp [get_metadata, hs] at h
    | some rows2 =>
      have hr : rows2 = rows := by
        simp [get_metadata, hs] at h
        exact h
      subst hr
      exact get_metadata_scan_eq_some rd topDirs rows2 hs

/-- C7 witness: with no metadata.csv anywhere the route returns the null
serialization. -/
theorem get_metadata_route_spec_witness :
    get_metadata c7noMeta ["dir1"] = MetaJson.dataNull :=
  (get_metadata_route_spec c7noMeta ["dir1"]).1.2 (fun _ _ => rfl)

/-- C8: search_gene_names returns at most 50 gene records, and the table
built by get_corr_genes has at most 50 rows (the SQL query carries LIMIT 50
after ordering by descending correlation). -/
theorem result_sizes_capped (speciesOk dbOk : Bool) (gdb : List GeneNameRow)
    (query : String) (cdb : List CorrRow)
    (geneInfo : String → List (String × String)) :
    (search_gene_names speciesOk dbOk gdb query).length ≤ 50 ∧
    ∀ rows, get_corr_genes dbOk cdb geneInfo query = CorrResult.table rows →
      rows.length ≤ 50 := by
  constructor
  · unfold search_gene_names
    split
    · simp
    · split
      · simp
      · simp [List.length_take]
  · intro rows h
    unfold get_corr_genes at h
    split at h
    · have hr : rows = (corrQueryRows cdb query).enum.map
          (fun p => ⟨geneInfo p.2.gene2, p.1 + 1, p.2.correlation⟩) := by
        cases h
        rfl
      rw [hr]
      simp [corrQueryRows, List.length_take]
    · cases h

/-- C8 witness: the search cap at a concrete empty database. -/
theorem result_sizes_capped_witness :
    (search_gene_names true true [] "a").length ≤ 50 :=
  (result_sizes_capped true true [] "a" [] c8geneInfo).1

theorem median_cluster_mch_core_lookup (rows : List GeneRow) (level : Level)
    (cluster_type : ClusterKey) {c : String}
    (hc : c ∈ firstKeys (fun r => rowCluster r cluster_type) (sortGeneRows rows)) :
    (median_cluster_mch_core rows level cluster_type).lookup c =
      some (pandasMedian (((sortGeneRows rows).filter
        (fun r => rowCluster r cluster_type == c)).map (fun r => rowLevel r level))) :=
  lookup_map_key _ c _ hc

/-- C5: median_cluster_mch is a group-by aggregation: on non-empty input it
succeeds and returns one entry per distinct cluster value, the clusters
ordered by sorting the rows on cluster_ordered ascending and keeping
first-appearance group order, and each cluster mapped to the median of the
level values of exactly the input rows belonging to that cluster. -/
theorem median_cluster_mch_groupby (rows : List GeneRow) (level : Level)
    (cluster_type : ClusterKey) (h : rows ≠ []) :
    median_cluster_mch rows level cluster_type =
      Except.ok (median_cluster_mch_core rows level cluster_type) ∧
    (median_cluster_mch_core rows level cluster_type).map Prod.fst =
      firstKeys (fun r => rowCluster r cluster_type) (sortGeneRows rows) ∧
    ∀ c ∈ (median_cluster_mch_core rows level cluster_type).map Prod.fst,
      (median_cluster_mch_core rows level cluster_type).lookup c =
        some (pandasMedian ((rows.filter
          (fun r => rowCluster r cluster_type == c)).map (fun r => rowLevel r level))) := by
  have hkeys : (median_cluster_mch_core rows level cluster_type).map Prod.fst =
      firstKeys (fun r => rowCluster r cluster_type) (sortGeneRows rows) := by
    unfold median_cluster_mch_core
    rw [List.map_map]
    exact List.map_id _
  refine ⟨?_, hkeys, ?_⟩
  · unfold median_cluster_mch
    have he : rows.isEmpty = false := by
      cases rows with
      | nil => exact absurd rfl h
      | cons a t => rfl
    rw [he]
    rfl
  · intro c hc
    rw [hkeys] at hc
    rw [median_cluster_mch_core_lookup rows level cluster_type hc]
    exact congrArg some (pandasMedian_perm
      (((List.perm_insertionSort geneRowLE rows).filter _).map _))

/-- C5 witness: the aggregation succeeds on a concrete two-row input. -/
theorem median_cluster_mch_groupby_witness :
    median_cluster_mch c5rows Level.original ClusterKey.cname =
      Except.ok (median_cluster_mch_core c5rows Level.original ClusterKey.cname) :=
  (median_cluster_mch_groupby c5rows Level.original ClusterKey.cname
    (by simp [c5rows])).1

theorem get_gene_methylation_kept_rows {cl : List ClusterPoint} {mh : List MethRow}
    {r : GeneRow} (hr : r ∈ get_gene_methylation true true cl mh false) :
    ∃ v q, r.normalized = some v ∧
      normQuantile99 (leftJoinOnSamp cl mh) = some q ∧ v < q := by
  have hshape : get_gene_methylation true true cl mh false =
      sortGeneRows ((leftJoinOnSamp cl mh).filter
        (fun r => pyLtOpt r.normalized (normQuantile99 (leftJoinOnSamp cl mh)))) := rfl
  rw [hshape] at hr
  have h2 := ((List.perm_insertionSort geneRowLE _).mem_iff).1 hr
  obtain ⟨_, h3⟩ := List.mem_filter.1 h2
  cases hn : r.normalized with
  | none => rw [hn] at h3; simp [pyLtOpt] at h3
  | some v =>
    cases hq : normQuantile99 (leftJoinOnSamp cl mh) with
    | none => rw [hn, hq] at h3; simp [pyLtOpt] at h3
    | some q2 =>
      rw [hn, hq] at h3
      exact ⟨v, q2, rfl, rfl, of_decide_eq_true h3⟩

/-- C6 counterexample: the claim says the result is the left join (cluster
points without methylation data appearing with missing values) with only the
rows at or above the 99th percentile removed when outliers is false.  At this
input the join holds samples s1, s2, s3 with normalized values 0, 10 and
missing, and the 99th percentile is 9.9; the claim therefore predicts that s2
(at or above) is removed while s1 and s3 remain, but the result keeps only
s1: the pandas comparison against the quantile is false for NaN, so the
missing-value record of s3 is dropped as well. -/
theorem get_gene_methylation_drops_missing :
    (leftJoinOnSamp c6cluster c6mch).map GeneRow.samp = ["s1", "s2", "s3"] ∧
    (leftJoinOnSamp c6cluster c6mch).map GeneRow.normalized = [some 0, some 10, none] ∧
    normQuantile99 (leftJoinOnSamp c6cluster c6mch) = some (99 / 10) ∧
    (get_gene_methylation true true c6cluster c6mch false).map GeneRow.samp = ["s1"] := by
  have hsorted : sortedVals [(0:ℚ), 10] = [0, 10] := by
    norm_num [sortedVals, List.insertionSort, List.orderedInsert]
  have hq : normQuantile99 (leftJoinOnSamp c6cluster c6mch) = some (99 / 10) := by
    have hnorm : (leftJoinOnSamp c6cluster c6mch).filterMap GeneRow.normalized = [0, 10] :=
      rfl
    unfold normQuantile99
    rw [hnorm]
    unfold pandasQuantile
    rw [hsorted]
    norm_num [Int.floor_eq_iff]
  refine ⟨rfl, rfl, hq, ?_⟩
  have hshape : get_gene_methylation true true c6cluster c6mch false =
      sortGeneRows ((leftJoinOnSamp c6cluster c6mch).filter
        (fun r => pyLtOpt r.normalized (normQuantile99 (leftJoinOnSamp c6cluster c6mch)))) :=
    rfl
  rw [hshape, hq]
  have hjoin : leftJoinOnSamp c6cluster c6mch =
      [⟨"s1", 0, 0, "L1", "C1", 1, "O1", some 0, some 0⟩,
       ⟨"s2", 0, 0, "L1", "C1", 2, "O1", some 10, some 10⟩,
       ⟨"s3", 0, 0, "L1", "C1", 3, "O1", none, none⟩] := rfl
  rw [hjoin]
  norm_num [pyLtOpt, List.filter, sortGeneRows, List.insertionSort, List.orderedInsert]

/-- C6 amended: for existing species and gene, get_gene_methylation returns
the left join of the cluster points with the methylation rows on samp, sorted
ascending by cluster_ordered; when outliers is false the rows removed before
sorting are those whose normalized value is at or above the 99th percentile
together with those whose normalized value is missing (every kept row carries
a value strictly below the quantile); when the species or the gene does not
exist the result is the empty list. -/
theorem get_gene_methylation_spec (cl : List ClusterPoint) (mh : List MethRow)
    (outliers : Bool) :
    get_gene_methylation false true cl mh outliers = [] ∧
    get_gene_methylation true false cl mh outliers = [] ∧
    (∀ r ∈ get_gene_methylation true true cl mh outliers, ∃ c ∈ cl, r.samp = c.samp) ∧
    List.Sorted geneRowLE (get_gene_methylation true true cl mh outliers) ∧
    (get_gene_methylation true true cl mh true).Perm (leftJoinOnSamp cl mh) ∧
    (get_gene_methylation true true cl mh false).Perm
      ((leftJoinOnSamp cl mh).filter
        (fun r => pyLtOpt r.normalized (normQuantile99 (leftJoinOnSamp cl mh)))) ∧
    (∀ r ∈ get_gene_methylation true true cl mh false,
      ∃ v q, r.normalized = some v ∧
        normQuantile99 (leftJoinOnSamp cl mh) = some q ∧ v < q) := by
  have htrue : get_gene_methylation true true cl mh true =
      sortGeneRows (leftJoinOnSamp cl mh) := rfl
  have hfalse : get_gene_methylation true true cl mh false =
      sortGeneRows ((leftJoinOnSamp cl mh).filter
        (fun r => pyLtOpt r.normalized (normQuantile99 (leftJoinOnSamp cl mh)))) := rfl
  refine ⟨rfl, rfl, ?_, ?_, ?_, ?_, fun r hr => get_gene_methylation_kept_rows hr⟩
  · intro r hr
    cases outliers with
    | true =>
      rw [htrue] at hr
      exact mem_leftJoinOnSamp (((List.perm_insertionSort geneRowLE _).mem_iff).1 hr)
    | false =>
      rw [hfalse] at hr
      have h2 := ((List.perm_insertionSort geneRowLE _).mem_iff).1 hr
      exact mem_leftJoinOnSamp (List.mem_filter.1 h2).1
  · cases outliers with
    | true => rw [htrue]; exact List.sorted_insertionSort geneRowLE _
    | false => rw [hfalse]; exact List.sorted_insertionSort geneRowLE _
  · rw [htrue]; exact List.perm_insertionSort geneRowLE _
  · rw [hfalse]; exact List.perm_insertionSort geneRowLE _

/-- C6 witness: the nonexistent-species branch and the outliers = true
permutation at a concrete input. -/
theorem get_gene_methylation_spec_witness :
    get_gene_methylation false true c6cluster c6mch true = [] ∧
    (get_gene_methylation true true c6cluster c6mch true).Perm
      (leftJoinOnSamp c6cluster c6mch) :=
  ⟨(get_gene_methylation_spec c6cluster c6mch true).1,
   (get_gene_methylation_spec c6cluster c6mch true).2.2.2.2.1⟩

end ScmdbContent
